import Mathlib

/-
Verification of the sprawl order/p2p core (eqlabs/sprawl).

The development shallowly embeds the Go sources:
  * service/order.go   — OrderService: Create, Lock (Delete/Unlock are analogous stubs)
  * p2p/main.go        — readData, writeData, sendToPeers, receiveStream, CloseStream

External collaborators (protobuf serialization, crypto/hmac+crypto/sha256, the
LevelDB storage backend, libp2p streams) are modelled as abstract function
parameters gathered into environment records; the control flow of the embedded
functions follows the Go source line by line.  Go `panic(err)` — an abnormal
termination that takes the whole process down — is modelled as a distinguished
error outcome, kept separate from ordinary returned error values.
-/

set_option autoImplicit false

namespace Sprawl

/-- Byte strings (`[]byte` in Go) are lists of naturals. -/
abbrev Bytes := List Nat

/-- pb.State: the order state enum. OPEN is the zero/initial value. -/
inductive State where
  | OPEN
  | LOCKED
deriving DecidableEq, Repr

/-- Protobuf well-known Timestamp (seconds, nanos), as returned by
`ptypes.TimestampNow()` in `Create`. -/
structure Timestamp where
  seconds : Int
  nanos : Int
deriving DecidableEq, Repr

/-- pb.CreateRequest (eqlabs version): asset and counter asset as byte strings,
an unsigned integer amount and a price.  The price is a float in the source;
no claim depends on float rounding, so it is modelled as an exact rational,
used purely as an opaque carried value. -/
structure CreateRequest where
  asset : Bytes
  counterAsset : Bytes
  amount : Nat
  price : Rat
deriving DecidableEq, Repr

/-- pb.Order, as constructed by `OrderService.Create`. -/
structure Order where
  id : Bytes
  created : Timestamp
  asset : Bytes
  counterAsset : Bytes
  amount : Nat
  price : Rat
  state : State
deriving DecidableEq, Repr

/-- pb.CreateResponse: the created order plus an error slot (always nil in the
source's successful return). -/
structure CreateResponse where
  createdOrder : Order
  error : Option Bytes
deriving DecidableEq, Repr

/-- pb.OrderSpecificRequest: identifies one order by id. -/
structure OrderSpecificRequest where
  id : Bytes
deriving DecidableEq, Repr

/-- pb.GenericResponse: an error slot, nil on success. -/
structure GenericResponse where
  error : Option Bytes
deriving DecidableEq, Repr

/-- The storage collaborator's visible state: an association list from keys to
values, most recent binding first (`Put` prepends, `Get` takes the first hit).
The LevelDB backend itself is external to the core. -/
abbrev Storage := List (Bytes × Bytes)

/-- Storage.Get: first binding for the key, if any. -/
def storageGet (st : Storage) (k : Bytes) : Option Bytes :=
  (st.find? (fun kv => kv.1 == k)).map (·.2)

/-- Storage.Put on the success path: record the binding (newest first). -/
def storagePut (st : Storage) (k v : Bytes) : Storage :=
  (k, v) :: st

/-- Environment of external collaborators used by `OrderService.Create`:
protobuf text serialization (`in.String()`, `now.String()`), binary protobuf
marshalling of orders, the keyed hash `hmac.New(sha256.New, key)` +
`Write`/`Sum` pipeline, and the storage backend's error behaviour for `Put`
(`putError k v = some e` means `storage.Put(k, v)` returns error `e`). -/
structure OrderEnv where
  hmacSha256 : Bytes → Bytes → Bytes
  reqString : CreateRequest → Bytes
  tsString : Timestamp → Bytes
  marshalOrder : Order → Except Bytes Bytes
  unmarshalOrder : Bytes → Option Order
  putError : Bytes → Bytes → Option Bytes

/-- The node's HMAC key material in `Create`: the hardcoded string
`secret := "mysecret"` (a TODO in the source notes the node's private key
should eventually be used instead). -/
def secret : Bytes := "mysecret".toList.map Char.toNat

/-- Abnormal termination of `Create`: the source calls `panic(err)` when
protobuf marshalling or the storage `Put` fails, which crashes the process
instead of returning the error to the gRPC client. -/
inductive CreateAbort where
  | marshalErr (e : Bytes)
  | storageErr (e : Bytes)
deriving DecidableEq, Repr

/-- The order constructed inside `Create`: id is the HMAC-SHA256, keyed with
`secret`, of the serialized request concatenated with the serialized creation
timestamp; the remaining fields are copied from the request and the state is
OPEN. -/
def mkOrder (env : OrderEnv) (req : CreateRequest) (now : Timestamp) : Order :=
  { id := env.hmacSha256 secret (env.reqString req ++ env.tsString now)
    created := now
    asset := req.asset
    counterAsset := req.counterAsset
    amount := req.amount
    price := req.price
    state := .OPEN }

/-- OrderService.Create (service/order.go): build the order, marshal it,
`storage.Put(id, orderInBytes)` keyed by the bare id, and return the response.
Marshal or Put errors hit `panic(err)` (modelled as `CreateAbort`). -/
def create (env : OrderEnv) (st : Storage) (req : CreateRequest) (now : Timestamp) :
    Except CreateAbort (CreateResponse × Storage) :=
  let order := mkOrder env req now
  match env.marshalOrder order with
  | .error e => .error (.marshalErr e)
  | .ok orderInBytes =>
    match env.putError order.id orderInBytes with
    | some e => .error (.storageErr e)
    | none => .ok ({ createdOrder := order, error := none }, storagePut st order.id orderInBytes)

/-- OrderService.Lock (service/order.go): the body is a
`TODO: Add Order locking logic` stub — it performs no storage read or write,
computes no signature, broadcasts nothing, and returns a nil-error ack.
The third component of the result lists the wire messages broadcast to the
channel (none). -/
def lock (st : Storage) (_req : OrderSpecificRequest) :
    GenericResponse × Storage × List Bytes :=
  ({ error := none }, st, [])

/-- GetOrderError: the failure modes of the GetOrder read path. -/
inductive GetOrderError where
  | notFound
  | decodeErr
deriving DecidableEq, Repr

/-- Modelled from the spec: `GetOrder(channel, orderId) -> Order or
NotFoundError` — the GetOrder handler's own code is not under src/ (only its
gRPC callers in the tests are).  Per the spec and the test
`TestOrderCreation`, it fetches the persisted record for the order id (the
key `Create` stored it under) and decodes it back into an Order, or reports
NotFoundError when the id is absent locally. -/
def getOrder (env : OrderEnv) (st : Storage) (orderId : Bytes) :
    Except GetOrderError Order :=
  match storageGet st orderId with
  | none => .error .notFound
  | some bytes =>
    match env.unmarshalOrder bytes with
    | some o => .ok o
    | none => .error .decodeErr

/-- Modelled from the spec: `interfaces.OrderPrefix`, the entity prefix that
distinguishes order records in the key layout convention
`<entityPrefix><channelScope><entityId>` (its defining code is not under
src/; only uses in the tests are).  The concrete byte value is illustrative —
the development only relies on it being a fixed non-empty tag. -/
def orderPrefix : Bytes := "order".toList.map Char.toNat

/-- Modelled from the spec: the key-prefixing helper `getOrderStorageKey`
whose code is not under src/ — only its tests are.  It builds the composite
key of the spec's layout convention `<entityPrefix><channelScope><entityId>`,
exactly as `TestOrderStorageKeyPrefixer` asserts in the later test file:
`getOrderStorageKey(assetPair, asset1) = OrderPrefix + assetPair + asset1`
(the earlier eqlabs test calls it with the entity id only, omitting the
channel scope; the spec's layout with both components is modelled here). -/
def getOrderStorageKey (channelScope : Bytes) (entityId : Bytes) : Bytes :=
  orderPrefix ++ channelScope ++ entityId

/-- Peer identities (libp2p `peer.ID` / peer identity strings): opaque values
the core only compares and uses as map keys. -/
abbrev PeerID := Nat

/-- Network environment for the p2p layer: this node's own identity
(`host.ID()`), whether `host.NewStream` to a given peer succeeds, and whether
the buffered `Write`+`Flush` to a given peer's stream succeeds. -/
structure P2pEnv where
  selfID : PeerID
  newStream : PeerID → Bool
  writeOk : PeerID → Bool

/-- Outcome of `sendToPeers`: either the broadcast loop ran to completion with
the listed `(peer, bytes)` writes (no error reported to the caller), or
`writeData` hit a write/flush error and called `panic(err)`, crashing the
process after the listed writes had already happened. -/
inductive SendOutcome where
  | ok (sends : List (PeerID × Bytes))
  | panicWrite (p : PeerID) (sends : List (PeerID × Bytes))
deriving DecidableEq, Repr

/-- Prepend a completed write to a broadcast outcome. -/
def consSend (e : PeerID × Bytes) : SendOutcome → SendOutcome
  | .ok s => .ok (e :: s)
  | .panicWrite q s => .panicWrite q (e :: s)

/-- p2p.sendToPeers (p2p/main.go): iterate the discovered-peer sequence;
skip a peer equal to `host.ID()`; skip (`continue`) a peer whose
`host.NewStream` fails; otherwise `writeData` writes the input to the
stream, and a write/flush error panics. -/
def sendToPeers (env : P2pEnv) : List PeerID → Bytes → SendOutcome
  | [], _ => .ok []
  | q :: rest, input =>
    if q = env.selfID then sendToPeers env rest input
    else if env.newStream q then
      if env.writeOk q then consSend (q, input) (sendToPeers env rest input)
      else .panicWrite q []
    else sendToPeers env rest input

/-- The writes performed during a broadcast, completed or aborted. -/
def sentList : SendOutcome → List (PeerID × Bytes)
  | .ok s => s
  | .panicWrite _ s => s

/-- A script of successive `reader.ReadBytes('\n')` results on one stream:
either the raw bytes read (up to and including the delimiter when no error
occurred) or a read error. -/
abbrev ReadScript := List (Except Bytes Bytes)

/-- Outcome of the older `readData` loop (p2p/main.go): a read error hits
`panic(err)` (process crash); a nil buffer returns; otherwise the frame is
printed and the loop continues (`looping` = script exhausted while still
looping, i.e. blocked on the next read). -/
inductive ReadOutcome where
  | panicked (e : Bytes)
  | returned
  | looping
deriving DecidableEq, Repr

/-- p2p.readData (p2p/main.go): `bytes, err := reader.ReadBytes('\n')`;
`panic(err)` on error; return on a nil buffer; else print and loop. -/
def readData : ReadScript → ReadOutcome
  | [] => .looping
  | .error e :: _ => .panicked e
  | .ok bs :: rest => if bs = [] then .returned else readData rest

/-- How the `receiveStream` loop exited. -/
inductive RecvExit where
  | readErr (e : Bytes)
  | receiverErr (e : Bytes)
  | noReceiver
  | closedClean
  | looping
deriving DecidableEq, Repr

/-- Result of running `receiveStream` against a read script: how the loop
exited, every frame handed to `receiver.Receive` (verbatim, in order), and
whether `stream.Close()` was called. -/
structure RecvResult where
  exit : RecvExit
  delivered : List Bytes
  closed : Bool
deriving DecidableEq, Repr

/-- Stream.receiveStream (p2p/main.go, later-version part of the file):
loop reading `reader.ReadBytes('\n')`.  A read error returns the wrapped
error (terminating only this loop; the stream is not closed there).  With no
registered receiver the loop returns an error.  Otherwise the frame is handed
to `receiver.Receive` exactly as read; a receiver error returns; only after
that, if the frame was the empty string, the stream is closed and the loop
returns nil. -/
def receiveStream (receiver : Option (Bytes → Option Bytes)) : ReadScript → RecvResult
  | [] => { exit := .looping, delivered := [], closed := false }
  | .error e :: _ => { exit := .readErr e, delivered := [], closed := false }
  | .ok data :: rest =>
    match receiver with
    | none => { exit := .noReceiver, delivered := [], closed := false }
    | some rcv =>
      match rcv data with
      | some e => { exit := .receiverErr e, delivered := [data], closed := false }
      | none =>
        if data = [] then { exit := .closedClean, delivered := [data], closed := true }
        else
          let r := receiveStream (some rcv) rest
          { exit := r.exit, delivered := data :: r.delivered, closed := r.closed }

/-- The peer-identity-keyed stream registry `p2p.streams`, with the underlying
stream handles abstracted to naturals. -/
abbrev Streams := List (PeerID × Nat)

/-- Registry lookup (`p2p.streams[peerIDString]` when the key is present). -/
def lookupStream (streams : Streams) (p : PeerID) : Option Nat :=
  (streams.find? (fun kv => kv.1 == p)).map (·.2)

/-- Outcome of CloseStream: a normal return carrying `stream.Close()`'s error
value plus the updated registry, or the nil-pointer panic incurred by calling
`Close` on the zero-value `Stream{}` a Go map yields for an absent key. -/
inductive CloseOutcome where
  | ok (err : Option Bytes) (streams' : Streams)
  | panicNilStream
deriving DecidableEq, Repr

/-- P2p.CloseStream (p2p/main.go): `err := p2p.streams[id].stream.Close();
delete(p2p.streams, id); return err`.  When no stream is registered for the
identity, the map access yields the zero value `Stream{}` whose `stream`
field is a nil interface, and the `Close` call panics. -/
def closeStream (closeErr : Nat → Option Bytes) (streams : Streams) (p : PeerID) :
    CloseOutcome :=
  match lookupStream streams p with
  | some h => .ok (closeErr h) (streams.filter (fun kv => kv.1 != p))
  | none => .panicNilStream

end Sprawl

namespace Sprawl

/-- Fixed fixture timestamp for concrete evaluations. -/
def ts0 : Timestamp := { seconds := 0, nanos := 0 }

/-- Fixture create request. -/
def req0 : CreateRequest := { asset := [65], counterAsset := [66], amount := 5, price := 1 }

/-- Fixture order: exactly the order `create env0 [] req0 ts0` constructs. -/
def order0 : Order :=
  { id := [7], created := ts0, asset := [65], counterAsset := [66]
    amount := 5, price := 1, state := .OPEN }

/-- Fixture response produced by `create env0 [] req0 ts0`. -/
def resp0 : CreateResponse := { createdOrder := order0, error := none }

/-- Fixture environment: concrete stand-ins for the external collaborators,
with an always-succeeding `Put` and an unmarshaller that inverts the
marshaller on the one order this fixture produces. -/
def env0 : OrderEnv :=
  { hmacSha256 := fun _ _ => [7]
    reqString := fun _ => [1]
    tsString := fun _ => [2]
    marshalOrder := fun _ => .ok [3]
    unmarshalOrder := fun _ => some order0
    putError := fun _ _ => none }

/-- Fixture environment whose storage `Put` always fails with error `[9]`. -/
def envPutFails : OrderEnv :=
  { env0 with putError := fun _ _ => some [9] }

/-- Fixture p2p environment: self-identity 0, every stream open and every
write succeeding. -/
def envP2p : P2pEnv :=
  { selfID := 0, newStream := fun _ => true, writeOk := fun _ => true }

/-- Fixture p2p environment in which the write to peer 1 fails. -/
def envWriteFail : P2pEnv :=
  { selfID := 0, newStream := fun _ => true, writeOk := fun p => p != 1 }

/-- Fixture p2p environment in which the stream open to peer 2 fails. -/
def envOpenFail : P2pEnv :=
  { selfID := 0, newStream := fun p => p != 2, writeOk := fun _ => true }

/-- Fixture receiver callback that always accepts. -/
def rcv0 : Bytes → Option Bytes := fun _ => none

/-- Fixture `stream.Close()` error behaviour: every close succeeds. -/
def ce0 : Nat → Option Bytes := fun _ => none

/-- Fixture read-error payload. -/
def errMsg0 : Bytes := [69]

/-- Fixture channel scope (the asset-pair string `"BTC,ETH"` of the tests). -/
def chan0 : Bytes := "BTC,ETH".toList.map Char.toNat

/-- C1: the id of the Order returned by Create equals the keyed HMAC-SHA256
(keyed with the node's secret key material, the constant `secret`) of the
serialized create request concatenated with the serialized creation
timestamp; consequently two calls with identical serialized request bytes
and identical timestamp compute identical ids. -/
theorem create_id_is_keyed_hmac (env : OrderEnv) (st₁ st₂ : Storage)
    (req₁ req₂ : CreateRequest) (now₁ now₂ : Timestamp)
    (resp₁ resp₂ : CreateResponse) (st₁' st₂' : Storage)
    (h₁ : create env st₁ req₁ now₁ = .ok (resp₁, st₁'))
    (h₂ : create env st₂ req₂ now₂ = .ok (resp₂, st₂')) :
    resp₁.createdOrder.id = env.hmacSha256 secret (env.reqString req₁ ++ env.tsString now₁)
    ∧ (env.reqString req₁ = env.reqString req₂ → now₁ = now₂ →
        resp₁.createdOrder.id = resp₂.createdOrder.id) := by
  simp only [create] at h₁ h₂
  split at h₁
  · simp at h₁
  · split at h₁
    · simp at h₁
    · split at h₂
      · simp at h₂
      · split at h₂
        · simp at h₂
        · simp only [Except.ok.injEq, Prod.mk.injEq] at h₁ h₂
          obtain ⟨hr₁, -⟩ := h₁
          obtain ⟨hr₂, -⟩ := h₂
          subst hr₁; subst hr₂
          refine ⟨rfl, fun hreq hnow => ?_⟩
          simp only [mkOrder, hreq, hnow]

/-- C1 witness: the theorem applied to the concrete fixture run. -/
theorem create_id_is_keyed_hmac_witness :
    resp0.createdOrder.id = env0.hmacSha256 secret (env0.reqString req0 ++ env0.tsString ts0)
    ∧ (env0.reqString req0 = env0.reqString req0 → ts0 = ts0 →
        resp0.createdOrder.id = resp0.createdOrder.id) :=
  create_id_is_keyed_hmac env0 [] [] req0 req0 ts0 ts0 resp0 resp0
    [([7], [3])] [([7], [3])] rfl rfl

/-- C2: Lock is an unimplemented stub, contradicting its own doc comment
("Lock locks the given Order … broadcasts the lock …").  For every storage
state and request it reports success, leaves every stored record untouched
(so an OPEN order stays OPEN and no signature is recomputed or persisted),
and broadcasts nothing. -/
theorem lock_is_a_noop (st : Storage) (req : OrderSpecificRequest) :
    (lock st req).1.error = none
    ∧ (lock st req).2.1 = st
    ∧ (∀ k, storageGet (lock st req).2.1 k = storageGet st k)
    ∧ (lock st req).2.2 = [] :=
  ⟨rfl, rfl, fun _ => rfl, rfl⟩

/-- C3: when the persist step fails, Create does not return a StorageError to
its caller — it panics.  Concretely, with a storage whose Put fails with
error `[9]`, `create` ends in the abnormal `CreateAbort.storageErr` outcome
(process crash) instead of any `.ok` response carrying an error value. -/
theorem create_put_failure_panics :
    create envPutFails [] req0 ts0 = .error (.storageErr [9]) := rfl

/-- The writes recorded by `consSend` are the prepended write followed by the
writes of the underlying outcome. -/
theorem sentList_consSend (e : PeerID × Bytes) (o : SendOutcome) :
    sentList (consSend e o) = e :: sentList o := by
  cases o <;> rfl

/-- C4: no broadcast write ever targets this node's own identity — every
`(peer, bytes)` write performed by `sendToPeers` has a peer different from
`host.ID()`, even when the self identity occurs in the discovered-peer
sequence. -/
theorem sendToPeers_never_sends_to_self (env : P2pEnv) (peers : List PeerID)
    (input : Bytes) (p : PeerID) (bs : Bytes)
    (h : (p, bs) ∈ sentList (sendToPeers env peers input)) : p ≠ env.selfID := by
  induction peers with
  | nil => simp [sendToPeers, sentList] at h
  | cons q rest ih =>
    simp only [sendToPeers] at h
    by_cases hq : q = env.selfID
    · rw [if_pos hq] at h; exact ih h
    · rw [if_neg hq] at h
      cases hn : env.newStream q with
      | false => rw [hn] at h; simp only [Bool.false_eq_true, if_false] at h; exact ih h
      | true =>
        rw [hn] at h
        simp only [if_true] at h
        cases hw : env.writeOk q with
        | false => rw [hw] at h; simp [sentList] at h
        | true =>
          rw [hw] at h
          simp only [if_true, sentList_consSend] at h
          rcases List.mem_cons.mp h with hhead | htail
          · cases hhead; exact hq
          · exact ih htail

/-- C4 witness: broadcasting to the peer sequence `[0, 1]` that contains the
self identity 0, the write to peer 1 happens and its target is not self. -/
theorem sendToPeers_never_sends_to_self_witness :
    (1, [5]) ∈ sentList (sendToPeers envP2p [0, 1] [5]) ∧ (1 : PeerID) ≠ envP2p.selfID :=
  ⟨by decide, sendToPeers_never_sends_to_self envP2p [0, 1] [5] 1 [5] (by decide)⟩

/-- C5 counterexample: a read error does not leave the process running with
the stream closed.  In the `readData` loop a read error panics (crashing the
whole process, not just this stream's loop), and in the `receiveStream` loop
a read error returns without the stream having been closed. -/
theorem read_error_crash_counterexample :
    readData [.error errMsg0] = .panicked errMsg0
    ∧ (receiveStream (some rcv0) [.error errMsg0]).closed = false :=
  ⟨rfl, rfl⟩

/-- C5 amended: on a read error `readData` panics, taking down the process;
`receiveStream` instead terminates only its own read loop, returning the
wrapped error from the per-stream goroutine with no frame delivered — but
without closing the stream there. -/
theorem read_error_terminates_loop (e : Bytes) (rest : ReadScript)
    (rcv : Option (Bytes → Option Bytes)) :
    readData (.error e :: rest) = .panicked e
    ∧ receiveStream rcv (.error e :: rest)
        = { exit := .readErr e, delivered := [], closed := false } :=
  ⟨rfl, rfl⟩

/-- C6 counterexample: with peers `[1, 2]` and the write to peer 1 failing,
the broadcast does not skip peer 1 and carry on — it panics at peer 1, no
write having been performed, and peer 2 is never attempted. -/
theorem sendToPeers_write_failure_counterexample :
    sendToPeers envWriteFail [1, 2] [5] = .panicWrite 1 []
    ∧ sentList (sendToPeers envWriteFail [1, 2] [5]) = [] :=
  ⟨rfl, rfl⟩

/-- C6 amended: a stream-open failure to a single peer is contained — the
peer is skipped, the remaining peers are still attempted and no error
escapes to the caller (first conjunct: whenever all writes succeed, the loop
completes normally and writes exactly to the non-self peers whose stream
opened, in order); a write failure, by contrast, panics via `writeData`,
aborting the broadcast (second conjunct). -/
theorem sendToPeers_open_failures_skipped (env : P2pEnv) (input : Bytes) :
    (∀ peers : List PeerID,
      (∀ p ∈ peers, p ≠ env.selfID → env.newStream p = true → env.writeOk p = true) →
      sendToPeers env peers input =
        .ok ((peers.filter (fun p => decide (p ≠ env.selfID) && env.newStream p)).map
              (fun p => (p, input))))
    ∧ (∀ (p : PeerID) (rest : List PeerID),
        p ≠ env.selfID → env.newStream p = true → env.writeOk p = false →
        sendToPeers env (p :: rest) input = .panicWrite p []) := by
  constructor
  · intro peers hall
    induction peers with
    | nil => rfl
    | cons q rest ih =>
      have hrest : ∀ p ∈ rest, p ≠ env.selfID → env.newStream p = true → env.writeOk p = true :=
        fun p hp => hall p (List.mem_cons_of_mem _ hp)
      by_cases hq : q = env.selfID
      · simp [sendToPeers, hq, ih hrest]
      · cases hn : env.newStream q with
        | false => simp [sendToPeers, hq, hn, ih hrest]
        | true =>
          have hw : env.writeOk q = true := hall q (List.mem_cons_self _ _) hq hn
          simp [sendToPeers, hq, hn, hw, ih hrest, consSend]
  · intro p rest hp hn hw
    simp [sendToPeers, hp, hn, hw]

/-- C6 witness: with stream open to peer 2 failing and all writes succeeding,
broadcasting to `[0, 1, 2, 3]` skips self (0) and the unreachable peer 2,
completes without error and still writes to peers 1 and 3; and with the
write to peer 1 failing, the loop panics at peer 1. -/
theorem sendToPeers_open_failures_skipped_witness :
    sendToPeers envOpenFail [0, 1, 2, 3] [5] =
      .ok ((([0, 1, 2, 3] : List PeerID).filter
              (fun p => decide (p ≠ envOpenFail.selfID) && envOpenFail.newStream p)).map
            (fun p => (p, [5])))
    ∧ sendToPeers envWriteFail [1, 2] [5] = .panicWrite 1 [] :=
  ⟨(sendToPeers_open_failures_skipped envOpenFail [5]).1 [0, 1, 2, 3] (by decide),
   (sendToPeers_open_failures_skipped envWriteFail [5]).2 1 [2] (by decide) (by decide) (by decide)⟩

/-- C7 counterexample: closing peer 1's registered stream succeeds and
deregisters it, but a second close for the same identity — the registry now
holding no stream for it — panics on the zero value's nil stream instead of
being a no-op: double-close is an error. -/
theorem closeStream_double_close_panics :
    closeStream ce0 [(1, 7)] 1 = .ok none []
    ∧ closeStream ce0 [] 1 = .panicNilStream :=
  ⟨rfl, rfl⟩

/-- C7 amended: closing a stream by peer identity closes the underlying
stream (returning its close error verbatim) and deregisters it from the
peer-to-stream map; it is not idempotent — a close for an identity with no
registered stream calls `Close` on a nil stream and panics. -/
theorem closeStream_closes_and_deregisters (ce : Nat → Option Bytes)
    (streams : Streams) (p : PeerID) :
    (∀ h, lookupStream streams p = some h →
      closeStream ce streams p = .ok (ce h) (streams.filter (fun kv => kv.1 != p)))
    ∧ (lookupStream streams p = none → closeStream ce streams p = .panicNilStream) := by
  constructor
  · intro h hl; simp [closeStream, hl]
  · intro hl; simp [closeStream, hl]

/-- C7 witness: the amended theorem applied to a registry holding a stream
for peer 1 and to the empty registry. -/
theorem closeStream_closes_and_deregisters_witness :
    closeStream ce0 [(1, 7)] 1 = .ok (ce0 7) (([(1, 7)] : Streams).filter (fun kv => kv.1 != 1))
    ∧ closeStream ce0 [] 1 = .panicNilStream :=
  ⟨(closeStream_closes_and_deregisters ce0 [(1, 7)] 1).1 7 rfl,
   (closeStream_closes_and_deregisters ce0 [] 1).2 rfl⟩

/-- C8: Create followed by GetOrder for the returned order's id yields an
order equal to the one Create returned, provided the protobuf decode inverts
the encode on that order (the persisted record decodes to exactly the
returned value). -/
theorem create_then_getOrder_roundtrip (env : OrderEnv) (st : Storage)
    (req : CreateRequest) (now : Timestamp) (resp : CreateResponse) (st' : Storage)
    (hc : create env st req now = .ok (resp, st'))
    (hr : ∀ b, env.marshalOrder resp.createdOrder = .ok b →
          env.unmarshalOrder b = some resp.createdOrder) :
    getOrder env st' resp.createdOrder.id = .ok resp.createdOrder := by
  simp only [create] at hc
  split at hc
  · simp at hc
  · rename_i orderInBytes hm
    split at hc
    · simp at hc
    · simp only [Except.ok.injEq, Prod.mk.injEq] at hc
      obtain ⟨hresp, hst⟩ := hc
      subst hresp
      subst hst
      have hu := hr orderInBytes hm
      simp [getOrder, storageGet, storagePut, List.find?, hu]

/-- C8 witness: the roundtrip theorem applied to the concrete fixture run. -/
theorem create_then_getOrder_roundtrip_witness :
    getOrder env0 [([7], [3])] resp0.createdOrder.id = .ok resp0.createdOrder :=
  create_then_getOrder_roundtrip env0 [] req0 ts0 resp0 [([7], [3])] rfl
    (fun _ _ => rfl)

/-- C9 counterexample: the concrete fixture Create persists the order under
the bare order id as the storage key — the one binding written is keyed by
`resp0.createdOrder.id` itself, which differs from the composite
`<entityPrefix><channelScope><entityId>` key the claim asserts (here with the
channel scope `chan0`, the asset-pair string of the tests). -/
theorem create_composite_key_counterexample :
    create env0 [] req0 ts0 = .ok (resp0, [(resp0.createdOrder.id, [3])])
    ∧ getOrderStorageKey chan0 resp0.createdOrder.id ≠ resp0.createdOrder.id :=
  ⟨rfl, by decide⟩

/-- C9 amended: Create persists the new order keyed by the bare order id
alone (the marshalled order is bound to the key `id`); the tested
key-prefixing helper `getOrderStorageKey` builds the spec's composite
`entityPrefix ++ channelScope ++ entityId` keys but is not used by Create. -/
theorem create_persists_under_bare_id (env : OrderEnv) (st : Storage)
    (req : CreateRequest) (now : Timestamp) (resp : CreateResponse) (st' : Storage)
    (hc : create env st req now = .ok (resp, st')) :
    (∃ b, env.marshalOrder resp.createdOrder = .ok b
        ∧ st' = (resp.createdOrder.id, b) :: st)
    ∧ ∀ c k, getOrderStorageKey c k = orderPrefix ++ c ++ k := by
  refine ⟨?_, fun _ _ => rfl⟩
  simp only [create] at hc
  split at hc
  · simp at hc
  · rename_i orderInBytes hm
    split at hc
    · simp at hc
    · simp only [Except.ok.injEq, Prod.mk.injEq] at hc
      obtain ⟨hresp, hst⟩ := hc
      subst hresp
      subst hst
      exact ⟨orderInBytes, hm, rfl⟩

/-- C9 amended witness: the theorem applied to the concrete fixture run. -/
theorem create_persists_under_bare_id_witness :
    (∃ b, env0.marshalOrder resp0.createdOrder = .ok b
        ∧ [(([7] : Bytes), ([3] : Bytes))] = (resp0.createdOrder.id, b) :: ([] : Storage))
    ∧ ∀ c k, getOrderStorageKey c k = orderPrefix ++ c ++ k :=
  create_persists_under_bare_id env0 [] req0 ts0 resp0 [([7], [3])] rfl

/-- C10: every frame the `receiveStream` loop hands to the registered
receiver is the raw byte sequence read, up to and including the newline
delimiter (byte 10) — nothing is stripped; and the frame is forwarded to the
receiver before the empty-frame end-of-stream check, so even the frame that
triggers the close is delivered first. -/
theorem receiveStream_delivers_verbatim_before_close_check
    (rcv : Bytes → Option Bytes) (bs : Bytes) (rest : ReadScript)
    (h : rcv (bs ++ [10]) = none) :
    (receiveStream (some rcv) (.ok (bs ++ [10]) :: rest)).delivered
        = (bs ++ [10]) :: (receiveStream (some rcv) rest).delivered
    ∧ (rcv [] = none →
        receiveStream (some rcv) (.ok [] :: rest)
          = { exit := .closedClean, delivered := [[]], closed := true }) := by
  constructor
  · simp [receiveStream, h]
  · intro h0; simp [receiveStream, h0]

/-- C10 witness: the theorem applied to a concrete accepting receiver and the
frame `[72, 10]` (payload byte followed by the newline delimiter). -/
theorem receiveStream_delivers_verbatim_witness :
    (receiveStream (some rcv0) [.ok ([72] ++ [10])]).delivered
        = ([72] ++ [10]) :: (receiveStream (some rcv0) []).delivered
    ∧ (rcv0 [] = none →
        receiveStream (some rcv0) [.ok []]
          = { exit := .closedClean, delivered := [[]], closed := true }) :=
  receiveStream_delivers_verbatim_before_close_check rcv0 [72] [] rfl

end Sprawl
